import Mathlib

/-!
Verification of the Intelligent-Drone voice-command core.

This file gives a shallow embedding, in Lean 4, of the command-interpretation
and execution core of the repository:

* src/voice/parser.py  — utterance parsing (parse_commands, get_command,
  extract_values) together with the static tables of src/config.py
  (COMMAND_DICT / COMMAND_LOOKUP, NUM_DICT, UNIT_PATTERNS, SEPARATOR_PATTERN,
  BASE_DIRECTION_OFFSETS, CONVERSION_FACTORS);
* src/utils.py         — convert_to_meters with its bounded memoization cache
  and the two execution flags;
* src/drone/command.py — execute_command, execute_movement_command,
  execute_rotation_command and _initialize_offboard;
* src/main.py          — execute_command_chain.

Python strings are modelled as lists of characters, floats as rationals
(with the cos and sin values returned by the float library supplied as oracle
fields of the world), async vehicle I/O as an oracle world record stating
which calls succeed within their timeouts, and raised-then-caught exceptions
as explicit result values.  A trace of issued vehicle calls and logged error
lines is returned so that claims about which calls are (not) issued can be
stated.
-/

/-- Command types, exactly the keys of COMMAND_DICT in src/config.py. -/
inductive CmdType
  | STOP | RETURN | LAND | FORWARD | BACKWARD | UP | DOWN | LEFT | RIGHT
  | RO_LEFT | RO_RIGHT | TAKEOFF | DISARM | ARM | SHUTDOWN
  deriving DecidableEq, Repr

/-- Unit keywords, exactly the keys of CONVERSION_FACTORS in src/config.py. -/
inductive UnitT
  | inches | feet | yards | meters | degrees
  deriving DecidableEq, Repr

/-- Shorthand turning a Lean string literal into the character-list model of a
Python string. -/
def cs (s : String) : List Char := s.data

/-- Whitespace test used by the model for the Python str.strip and str.split
behaviour and for the regex whitespace class (voice input is plain ASCII
text, so the space, tab, newline and carriage-return characters suffice). -/
def isWS (c : Char) : Bool := c = ' ' || c = '\t' || c = '\n' || c = '\r'

/-- Word character test for the regex word-boundary semantics of the
whole-word unit patterns in UNIT_PATTERNS (letters, digits, underscore). -/
def isWordChar (c : Char) : Bool := c.isAlphanum || c = '_'

/-- Model of Python str.strip: drop leading and trailing whitespace. -/
def strip (s : List Char) : List Char :=
  (((s.dropWhile isWS).reverse.dropWhile isWS)).reverse

/-- Helper for the model of the no-argument Python str.split: accumulate the
current word (reversed) and emit it at each whitespace run. -/
def splitWsAux : List Char → List Char → List (List Char)
  | [], acc => if acc = [] then [] else [acc.reverse]
  | c :: rest, acc =>
    if isWS c then
      if acc = [] then splitWsAux rest [] else acc.reverse :: splitWsAux rest []
    else
      splitWsAux rest (c :: acc)

/-- Model of the no-argument Python str.split: split on whitespace runs,
dropping empty pieces. -/
def splitWs (s : List Char) : List (List Char) := splitWsAux s []

/-- Model of Python str.lower for the ASCII voice-command text. -/
def lowerStr (s : List Char) : List Char := s.map Char.toLower

/-- Model of str.replace(t, empty, 1): remove the first occurrence of t. -/
def replaceFirst (t : List Char) : List Char → List Char
  | [] => []
  | c :: rest =>
    if t <+: (c :: rest) then (c :: rest).drop t.length
    else c :: replaceFirst t rest

/-- Matcher for one literal connective word of SEPARATOR_PATTERN followed by
mandatory whitespace, as in the regex piece "then\s+": on success it returns
the input minus the word and minus the (greedily consumed) whitespace. -/
def wordThenWS (w : List Char) (s : List Char) : Option (List Char) :=
  if w <+: s then
    match s.drop w.length with
    | d :: rest => if isWS d then some ((d :: rest).dropWhile isWS) else none
    | [] => none
  else none

/-- Matcher for one alternative of the connective group of SEPARATOR_PATTERN
(then, and, next, after-that, followed-by, afterward), where the two-word
alternatives contain an inner mandatory-whitespace gap.  Returns the input
minus the connective, not consuming any trailing whitespace. -/
def connWord (w1 : List Char) (w2 : List Char) (s : List Char) : Option (List Char) :=
  if w1 <+: s then
    if w2 = [] then some (s.drop w1.length)
    else
      match s.drop w1.length with
      | d :: rest =>
        if isWS d then
          let r := (d :: rest).dropWhile isWS
          if w2 <+: r then some (r.drop w2.length) else none
        else none
      | [] => none
  else none

/-- Ordered alternatives of the connective group of SEPARATOR_PATTERN, in the
order the regex alternation lists them. -/
def sepConnectives : List (List Char × List Char) :=
  [(cs "then", []), (cs "and", []), (cs "next", []),
   (cs "after", cs "that"), (cs "followed", cs "by"), (cs "afterward", [])]

/-- Matcher for the whole connective group followed by mandatory trailing
whitespace, trying the alternatives in regex order; an alternative whose
trailing whitespace is absent is skipped in favour of the next one, matching
how the regex engine backtracks over the alternation. -/
def connGroupWS : List (List Char × List Char) → List Char → Option (List Char)
  | [], _ => none
  | (w1, w2) :: alts, s =>
    match connWord w1 w2 s with
    | some r =>
      match r with
      | d :: rest => if isWS d then some ((d :: rest).dropWhile isWS) else connGroupWS alts s
      | [] => connGroupWS alts s
    | none => connGroupWS alts s

/-- Matcher for SEPARATOR_PATTERN of src/config.py at the head of the input.
The pattern is the alternation of (a) a comma, optional whitespace and an
optional "then/and/next plus whitespace" group, and (b) an optional comma,
mandatory whitespace, one of the six connectives, and mandatory whitespace.
A leading comma always satisfies alternative (a), so alternative (b) is only
reachable without a comma, where its optional comma matches nothing and its
leading whitespace class must match; the whitespace quantifiers are greedy
and every group alternative starts with a letter, so greedy consumption is
exact.  Returns the remaining input after the match, or none. -/
def matchSepAt (s : List Char) : Option (List Char) :=
  match s with
  | [] => none
  | c :: rest =>
    if c = ',' then
      let r := rest.dropWhile isWS
      match connGroupWS [(cs "then", []), (cs "and", []), (cs "next", [])] r with
      | some r2 => some r2
      | none => some r
    else if isWS c then
      connGroupWS sepConnectives ((c :: rest).dropWhile isWS)
    else none

/-- Helper for the model of re.split on SEPARATOR_PATTERN: scan left to
right for the leftmost separator match; fuel equals the input length, which
suffices because every separator match consumes at least one character. -/
def splitSepAux : Nat → List Char → List Char → List (List Char)
  | 0, s, acc => [acc.reverse ++ s]
  | _ + 1, [], acc => [acc.reverse]
  | fuel + 1, c :: rest, acc =>
    match matchSepAt (c :: rest) with
    | some rem => acc.reverse :: splitSepAux fuel rem []
    | none => splitSepAux fuel rest (c :: acc)

/-- Model of SEPARATOR_PATTERN.split of src/voice/parser.py (the pattern has
no capturing groups, so re.split returns only the fragments). -/
def splitSep (s : List Char) : List (List Char) := splitSepAux s.length s []

/-- COMMAND_LOOKUP of src/config.py: the flattening of COMMAND_DICT into an
ordered trigger-to-command table; Python dicts iterate in insertion order,
which is the declaration order below. -/
def COMMAND_LOOKUP : List (List Char × CmdType) :=
  [(cs "stop", .STOP), (cs "stop drone", .STOP),
   (cs "return", .RETURN), (cs "come home", .RETURN), (cs "home", .RETURN),
   (cs "land", .LAND), (cs "land drone", .LAND),
   (cs "forward", .FORWARD),
   (cs "backward", .BACKWARD),
   (cs "up", .UP),
   (cs "down", .DOWN),
   (cs "left", .LEFT),
   (cs "right", .RIGHT),
   (cs "turn left", .RO_LEFT), (cs "rotate left", .RO_LEFT),
   (cs "turn right", .RO_RIGHT), (cs "rotate right", .RO_RIGHT),
   (cs "takeoff", .TAKEOFF), (cs "take off", .TAKEOFF),
   (cs "disarm", .DISARM), (cs "disarm drone", .DISARM),
   (cs "arm", .ARM), (cs "arm drone", .ARM),
   (cs "shutdown", .SHUTDOWN), (cs "power off", .SHUTDOWN)]

/-- NUM_DICT of src/config.py: number words (including the homophones to and
for) with their integer values. -/
def NUM_DICT : List (List Char × Nat) :=
  [(cs "one", 1), (cs "two", 2), (cs "to", 2), (cs "three", 3),
   (cs "four", 4), (cs "for", 4), (cs "five", 5), (cs "six", 6),
   (cs "seven", 7), (cs "eight", 8), (cs "nine", 9), (cs "ten", 10),
   (cs "eleven", 11), (cs "twelve", 12), (cs "thirteen", 13),
   (cs "fourteen", 14), (cs "fifteen", 15), (cs "sixteen", 16),
   (cs "seventeen", 17), (cs "eighteen", 18), (cs "nineteen", 19),
   (cs "twenty", 20), (cs "thirty", 30), (cs "forty", 40), (cs "fifty", 50),
   (cs "sixty", 60), (cs "seventy", 70), (cs "eighty", 80),
   (cs "ninety", 90), (cs "hundred", 100)]

/-- Dictionary membership test plus lookup for NUM_DICT. -/
def numLookup (w : List Char) : Option Nat :=
  (NUM_DICT.find? (fun p => decide (p.1 = w))).map (fun p => p.2)

/-- First trigger of the lookup table occurring as a substring of the
command, scanning the table in declaration order — the loop over
COMMAND_LOOKUP.items() in get_command of src/voice/parser.py. -/
def findTrigger : List (List Char × CmdType) → List Char → Option (List Char × CmdType)
  | [], _ => none
  | (t, c) :: rest, command =>
    if t <:+: command then some (t, c) else findTrigger rest command

/-- Numeric value of one ASCII digit character. -/
def digitVal (c : Char) : Nat := c.toNat - 48

/-- Integer value of a digit run, as int() computes it. -/
def digitsToNat (ds : List Char) : Nat :=
  ds.foldl (fun a c => a * 10 + digitVal c) 0

/-- Model of DIGIT_PATTERN.search of src/voice/parser.py: the leftmost
maximal run of decimal digits, converted with int(), or none. -/
def digitSearch : List Char → Option Nat
  | [] => none
  | c :: rest =>
    if c.isDigit then some (digitsToNat (List.takeWhile Char.isDigit (c :: rest)))
    else digitSearch rest

/-- Word-number accumulation loop of extract_values in src/voice/parser.py:
sum matched number words, a hundred token multiplies the running total by
100, and the first unmatched word with a positive total ends the scan
keeping the total. -/
def wordTotal : List (List Char) → Nat → Nat
  | [], total => total
  | w :: ws, total =>
    match numLookup w with
    | some n => wordTotal ws (if n = 100 then total * 100 else total + n)
    | none => if 0 < total then total else wordTotal ws total

/-- Whole-word occurrence of w at the head of s: w is a leading piece of s
and the following character, if any, is not a word character (the trailing
word boundary of the unit regexes; w itself always starts and ends with a
letter). -/
def wholeWordAt (w s : List Char) : Bool :=
  decide (w <+: s) &&
    (match s.drop w.length with
     | [] => true
     | d :: _ => !isWordChar d)

/-- Whole-word search of w in s; prevIsW records whether the previous
character is a word character, so a match position also has a leading word
boundary. -/
def wholeWordSearch (w : List Char) : List Char → Bool → Bool
  | [], _ => false
  | c :: rest, prevIsW =>
    (!prevIsW && wholeWordAt w (c :: rest)) || wholeWordSearch w rest (isWordChar c)

/-- Truth of pattern.search for one UNIT_PATTERNS entry: some alternative of
the pattern occurs as a whole word. -/
def unitWordHit (alts : List (List Char)) (s : List Char) : Bool :=
  alts.any (fun w => wholeWordSearch w s false)

/-- Unit extraction loop of extract_values: UNIT_PATTERNS is scanned in
declaration order (inches, feet, yards, degrees) and the first pattern whose
search succeeds names the unit. -/
def unitSearch (s : List Char) : Option UnitT :=
  if unitWordHit [cs "inch", cs "inches"] s then some UnitT.inches
  else if unitWordHit [cs "feet", cs "foot"] s then some UnitT.feet
  else if unitWordHit [cs "yard", cs "yards"] s then some UnitT.yards
  else if unitWordHit [cs "degree", cs "degrees"] s then some UnitT.degrees
  else none

/-- Truthiness of the extracted value in the Python test "if distVal and not
distType": None and the integer 0 are falsy. -/
def natTruthy : Option Nat → Bool
  | some n => decide (0 < n)
  | none => false

/-- Model of extract_values of src/voice/parser.py. -/
def extract_values (input : List Char) : Option Nat × Option UnitT :=
  if input = [] then (none, none)
  else
    let input := strip input
    let distVal : Option Nat :=
      match digitSearch input with
      | some n => some n
      | none =>
        let total := wordTotal (splitWs input) 0
        if 0 < total then some total else none
    let distType0 := unitSearch input
    let distType :=
      match distType0 with
      | some u => some u
      | none => if natTruthy distVal then some UnitT.meters else none
    (distVal, distType)

/-- Model of get_command of src/voice/parser.py.  The Python function wraps
its body in a try/except returning (None, None, None); the body raises no
exception for any input, so the model is the plain body. -/
def get_command (command : List Char) : Option CmdType × Option Nat × Option UnitT :=
  if command = [] then (none, none, none)
  else
    let command := strip command
    match findTrigger COMMAND_LOOKUP command with
    | some (t, c) =>
      let remInput := strip (replaceFirst t command)
      let vu := extract_values remInput
      (some c, vu.1, vu.2)
    | none => (none, none, none)

/-- Loop body of parse_commands: strip the fragment, drop it when empty,
run get_command, and keep the triple only when its command slot is truthy. -/
def fragResult (frag : List Char) : Option (CmdType × Option Nat × Option UnitT) :=
  let command := strip frag
  if command = [] then none
  else
    match get_command command with
    | (some c, v, u) => some (c, v, u)
    | (none, _, _) => none

/-- Model of parse_commands of src/voice/parser.py.  The try/except of the
Python function returns the empty list on an exception; the body raises no
exception for any input, so the model is the plain body. -/
def parse_commands (input : List Char) : List (CmdType × Option Nat × Option UnitT) :=
  if input = [] then []
  else (splitSep (lowerStr input)).filterMap fragResult

/-- Parsed command triple as produced by parse_commands and consumed by
execute_command and execute_command_chain. -/
abbrev ParsedCommand := CmdType × Option Nat × Option UnitT

/-- CONVERSION_FACTORS of src/config.py as exact rationals (0.0254, 0.3048,
0.9144, 1.0, 1.0); every UnitT value is a key, so the .get lookup never
misses for the closed unit type. -/
def factorOf : UnitT → Rat
  | .inches => 127 / 5000
  | .feet => 381 / 1250
  | .yards => 1143 / 1250
  | .meters => 1
  | .degrees => 1

/-- Conversion cache of src/config.py (the module-level _conversionCache
dict), modelled as an association list; dict.get semantics is lookup of the
first entry with the key, and keys are never inserted twice. -/
abbrev ConvCache := List ((Nat × UnitT) × Rat)

/-- Lookup in the conversion cache, the dict.get of src/utils.py. -/
def lookupCache : ConvCache → Nat × UnitT → Option Rat
  | [], _ => none
  | (k, r) :: rest, key => if k = key then some r else lookupCache rest key

/-- Model of convert_to_meters of src/utils.py, threading the cache
explicitly: falsy value (None or 0) or missing unit give None; otherwise a
cache hit returns the cached number, and a miss computes value times factor
and inserts the entry only while the cache holds fewer than 50 entries.
The entry position inside the dict does not affect dict.get, so the model
inserts at the head. -/
def convert_to_meters (value : Option Nat) (unit : Option UnitT) (cache : ConvCache) :
    Option Rat × ConvCache :=
  match value, unit with
  | some v, some u =>
    if v = 0 then (none, cache)
    else
      match lookupCache cache (v, u) with
      | some r => (some r, cache)
      | none =>
        let r := (v : Rat) * factorOf u
        if cache.length < 50 then (some r, ((v, u), r) :: cache) else (some r, cache)
  | _, _ => (none, cache)

/-- Folding a whole sequence of conversion calls over the cache, keeping the
final cache; used to state the capacity bound over any call sequence. -/
def runConversions : List (Option Nat × Option UnitT) → ConvCache → ConvCache
  | [], cache => cache
  | (v, u) :: rest, cache => runConversions rest (convert_to_meters v u cache).2

/-- Vehicle-control calls issued by the executor, the async MAVSDK
operations of src/drone/command.py; a call is recorded when it is issued,
whether or not it later times out. -/
inductive VehicleCall
  | offboardStop
  | offboardStart
  | arm
  | disarm
  | takeoff
  | land
  | hold
  | returnToLaunch
  | setTakeoffAltitude (alt : Rat)
  | setPositionNed (north east down yaw : Rat)
  deriving DecidableEq, Repr

/-- Exception classes that can escape the inner coroutines and are caught by
the handlers at the foot of execute_command: asyncio.TimeoutError,
ActionError, OffboardError and any other exception (such as the TypeError
from indexing a None position). -/
inductive PyExc
  | timeout
  | actionErr
  | offboardErr
  | typeErr
  deriving DecidableEq, Repr

/-- Return value of execute_command: the Python function returns None
(normal) or the string SHUTDOWN; every exception raised inside it is caught
by its own handlers. -/
inductive CmdResult
  | normal
  | shutdown
  deriving DecidableEq, Repr

/-- Oracle world for one execute_command run: the telemetry values the
drone reports, the cosine and sine values the float library returns for the
current yaw, and which classes of vehicle calls complete within their
timeouts.  SIM_MODE is the config flag of src/config.py. -/
structure World where
  simMode : Bool
  armed : Bool
  inAir : Bool
  yaw : Rat
  cosYaw : Rat
  sinYaw : Rat
  telemPos : Rat × Rat × Rat
  offboardStopOk : Bool
  setpointOk : Bool
  actionOk : Bool
  offboardStartOk : Bool
  deriving DecidableEq, Repr

/-- BASE_DIRECTION_OFFSETS of src/config.py: unit direction vectors in the
body-relative frame for the six translational commands; .get returns None
for every other key. -/
def BASE_DIRECTION_OFFSETS : CmdType → Option (Rat × Rat × Rat)
  | .FORWARD => some (1, 0, 0)
  | .BACKWARD => some (-1, 0, 0)
  | .LEFT => some (0, -1, 0)
  | .RIGHT => some (0, 1, 0)
  | .UP => some (0, 0, -1)
  | .DOWN => some (0, 0, 1)
  | _ => none

/-- Commands that disable active offboard control, the tuple tested at the
offboard-stop guard of execute_command. -/
def offboardDisablers : List CmdType :=
  [.STOP, .RETURN, .LAND, .DISARM, .SHUTDOWN]

/-- Commands for which the SIM_MODE branch of execute_command marks offboard
active. -/
def simEnablers : List CmdType :=
  [.FORWARD, .BACKWARD, .UP, .DOWN, .LEFT, .RIGHT, .RO_LEFT, .RO_RIGHT,
   .TAKEOFF, .ARM]

/-- Composition of the call-site guard (distMeters is computed only when
distVal is truthy) with the value and unit checks inside convert_to_meters.
The memoization cache changes no returned value (theorem for claim C9), so
the pure form is used inside the executor model. -/
def pyDistMeters (v : Option Nat) (u : Option UnitT) : Option Rat :=
  match v with
  | none => none
  | some v =>
    if v = 0 then none
    else
      match u with
      | none => none
      | some u => some ((v : Rat) * factorOf u)

/-- Truthiness of a Python float option: None and 0.0 are falsy. -/
def ratTruthy : Option Rat → Bool
  | some r => decide (r ≠ 0)
  | none => false

/-- Command names as they appear in the f-string log messages. -/
def cmdName : CmdType → String
  | .STOP => "STOP"
  | .RETURN => "RETURN"
  | .LAND => "LAND"
  | .FORWARD => "FORWARD"
  | .BACKWARD => "BACKWARD"
  | .UP => "UP"
  | .DOWN => "DOWN"
  | .LEFT => "LEFT"
  | .RIGHT => "RIGHT"
  | .RO_LEFT => "RO_LEFT"
  | .RO_RIGHT => "RO_RIGHT"
  | .TAKEOFF => "TAKEOFF"
  | .DISARM => "DISARM"
  | .ARM => "ARM"
  | .SHUTDOWN => "SHUTDOWN"

/-- Result of one inner coroutine (offboard initialization, movement or
rotation): the offboard flag and cached NED position after the run, the
vehicle calls issued, the error lines logged, and the exception escaping to
the caller, if any. -/
structure StepOut where
  offboard : Bool
  nedPos : Option (Rat × Rat × Rat)
  calls : List VehicleCall
  errors : List String
  exc : Option PyExc
  deriving DecidableEq, Repr

/-- Model of initialize-offboard of src/drone/command.py (the function named
with a leading underscore there): verify armed and in-air (returning with
only an error line otherwise), read yaw and NED position from telemetry
(the world oracle already folds in the fallback defaults on telemetry
failure), store the position, issue a setpoint at the current pose, start
offboard mode and mark the flag; a timeout of the setpoint or a rejection
of the start escapes as an exception after the position was already
stored. -/
def initialize_offboard (w : World) (ob : Bool) (pos : Option (Rat × Rat × Rat)) : StepOut :=
  if !w.armed then
    { offboard := ob, nedPos := pos, calls := [],
      errors := ["Cannot start offboard mode: Drone is not armed."], exc := none }
  else if !w.inAir then
    { offboard := ob, nedPos := pos, calls := [],
      errors := ["Cannot start offboard mode: Drone is not in the air."], exc := none }
  else
    let nedPos := w.telemPos
    let calls := [VehicleCall.setPositionNed nedPos.1 nedPos.2.1 nedPos.2.2 w.yaw]
    if !w.setpointOk then
      { offboard := ob, nedPos := some nedPos, calls := calls, errors := [],
        exc := some PyExc.timeout }
    else if !w.offboardStartOk then
      { offboard := ob, nedPos := some nedPos,
        calls := calls ++ [VehicleCall.offboardStart], errors := [],
        exc := some PyExc.offboardErr }
    else
      { offboard := true, nedPos := some nedPos,
        calls := calls ++ [VehicleCall.offboardStart], errors := [], exc := none }

/-- Model of execute_movement_command of src/drone/command.py: initialize
offboard when inactive, look up the direction vector, scale it by the
distance, rotate the horizontal part by the yaw read from telemetry (cosYaw
and sinYaw are the values math.cos and math.sin return for that yaw), add
to the cached NED position, issue the position-plus-yaw setpoint, and store
the new position on success.  A None cached position makes the arithmetic
raise before the setpoint is issued; the post-setpoint interruptible wait
checks the stop flag but mutates no state and issues no call, so it has no
footprint here. -/
def execute_movement_command (w : World) (direction : CmdType) (distance : Rat)
    (ob : Bool) (pos : Option (Rat × Rat × Rat)) : StepOut :=
  let init :=
    if !ob then initialize_offboard w ob pos
    else { offboard := ob, nedPos := pos, calls := [], errors := [], exc := none }
  match init.exc with
  | some _ => init
  | none =>
    match BASE_DIRECTION_OFFSETS direction with
    | none => { init with errors := init.errors ++ ["Unknown direction"] }
    | some (dx, dy, dz) =>
      match init.nedPos with
      | none => { init with exc := some PyExc.typeErr }
      | some (n, e, dn) =>
        let vectorX := dx * distance
        let vectorY := dy * distance
        let vectorZ := dz * distance
        let moveX := vectorX * w.cosYaw - vectorY * w.sinYaw
        let moveY := vectorX * w.sinYaw + vectorY * w.cosYaw
        let moveZ := vectorZ
        let newPos : Rat × Rat × Rat := (n + moveX, e + moveY, dn + moveZ)
        let calls := init.calls ++
          [VehicleCall.setPositionNed newPos.1 newPos.2.1 newPos.2.2 w.yaw]
        if w.setpointOk then
          { offboard := init.offboard, nedPos := some newPos, calls := calls,
            errors := init.errors, exc := none }
        else
          { offboard := init.offboard, nedPos := init.nedPos, calls := calls,
            errors := init.errors, exc := some PyExc.timeout }

/-- Model of execute_rotation_command of src/drone/command.py: initialize
offboard when inactive, read yaw, add the angle for a right rotation and
subtract it for a left one, and issue a setpoint at the unchanged cached
position with the new yaw; the cached position is never updated here. -/
def execute_rotation_command (w : World) (direction : CmdType) (angle : Rat)
    (ob : Bool) (pos : Option (Rat × Rat × Rat)) : StepOut :=
  let init :=
    if !ob then initialize_offboard w ob pos
    else { offboard := ob, nedPos := pos, calls := [], errors := [], exc := none }
  match init.exc with
  | some _ => init
  | none =>
    match init.nedPos with
    | none => { init with exc := some PyExc.typeErr }
    | some (n, e, dn) =>
      let yaw1 := if direction = CmdType.RO_RIGHT then w.yaw + angle else w.yaw - angle
      let calls := init.calls ++ [VehicleCall.setPositionNed n e dn yaw1]
      if w.setpointOk then
        { offboard := init.offboard, nedPos := init.nedPos, calls := calls,
          errors := init.errors, exc := none }
      else
        { offboard := init.offboard, nedPos := init.nedPos, calls := calls,
          errors := init.errors, exc := some PyExc.timeout }

/-- Result of one execute_command run: the offboard flag and cached NED
position afterwards (the only two vehicle-state globals the function
writes; the two execution flags are only read), the returned sentinel, and
the traces of issued vehicle calls and logged error lines. -/
structure ExecOut where
  offboard : Bool
  nedPos : Option (Rat × Rat × Rat)
  result : CmdResult
  calls : List VehicleCall
  errors : List String
  deriving DecidableEq, Repr

/-- Translation of the exception handlers at the foot of execute_command:
each caught class logs one error line naming the command. -/
def excError (c : CmdType) : PyExc → String
  | .timeout => cmdName c ++ " command timed out"
  | .actionErr => "Action error during " ++ cmdName c
  | .offboardErr => "Offboard error during " ++ cmdName c
  | .typeErr => "Unexpected error during " ++ cmdName c

/-- Packaging of a movement or rotation StepOut into the ExecOut of the
enclosing execute_command, turning an escaped exception into its logged
error line. -/
def stepToExec (c : CmdType) (preErrors : List String) (s : StepOut) : ExecOut :=
  { offboard := s.offboard, nedPos := s.nedPos, result := CmdResult.normal,
    calls := s.calls,
    errors := preErrors ++ s.errors ++
      (match s.exc with
       | some e => [excError c e]
       | none => []) }

/-- Movement branch of execute_command: armed and in-air preconditions,
then the movement coroutine with the converted distance, or the 0.1 meter
nominal step when the magnitude is falsy. -/
def execMoveBranch (w : World) (c : CmdType) (distMeters : Option Rat) (ob : Bool)
    (pos : Option (Rat × Rat × Rat)) : ExecOut :=
  if !w.armed then
    { offboard := ob, nedPos := pos, result := .normal, calls := [],
      errors := ["Cannot execute " ++ cmdName c ++ ": Drone is not armed."] }
  else if !w.inAir then
    { offboard := ob, nedPos := pos, result := .normal, calls := [],
      errors := ["Cannot execute " ++ cmdName c ++
        ": Drone is not in the air. Please take off first."] }
  else
    let dist := match distMeters with
      | some r => if r ≠ 0 then r else 1 / 10
      | none => 1 / 10
    stepToExec c [] (execute_movement_command w c dist ob pos)

/-- Rotation branch of execute_command: armed and in-air preconditions,
then the rotation coroutine with the converted angle, defaulting to 90
degrees when the magnitude is falsy. -/
def execRotBranch (w : World) (c : CmdType) (distMeters : Option Rat) (ob : Bool)
    (pos : Option (Rat × Rat × Rat)) : ExecOut :=
  if !w.armed then
    { offboard := ob, nedPos := pos, result := .normal, calls := [],
      errors := ["Cannot execute " ++ cmdName c ++ ": Drone is not armed."] }
  else if !w.inAir then
    { offboard := ob, nedPos := pos, result := .normal, calls := [],
      errors := ["Cannot execute " ++ cmdName c ++
        ": Drone is not in the air. Please take off first."] }
  else
    let angle := match distMeters with
      | some r => if r ≠ 0 then r else 90
      | none => 90
    stepToExec c [] (execute_rotation_command w c angle ob pos)

/-- Main command dispatch of execute_command of src/drone/command.py, after
the stop-request skip, the SIM_MODE branch and the offboard-stop preamble
have been handled by the caller.  The actionOk oracle states whether the
basic action calls of the branch complete within ACTION_TIMEOUT; a timeout
is caught at the foot of the function and logged. -/
def execMain (w : World) (cmdType : CmdType) (distVal : Option Nat)
    (distType : Option UnitT) (ob : Bool) (pos : Option (Rat × Rat × Rat)) : ExecOut :=
  let distMeters := pyDistMeters distVal distType
  match cmdType with
  | .ARM =>
    { offboard := ob, nedPos := pos, result := .normal, calls := [VehicleCall.arm],
      errors := if w.actionOk then [] else [excError .ARM PyExc.timeout] }
  | .STOP =>
    if !w.armed then
      { offboard := ob, nedPos := pos, result := .normal, calls := [],
        errors := ["Cannot execute STOP: Drone is not armed."] }
    else if !w.inAir then
      { offboard := ob, nedPos := pos, result := .normal, calls := [],
        errors := ["Cannot execute STOP: Drone is not in the air."] }
    else
      { offboard := ob, nedPos := pos, result := .normal, calls := [VehicleCall.hold],
        errors := if w.actionOk then [] else [excError .STOP PyExc.timeout] }
  | .RETURN =>
    if !w.armed then
      { offboard := ob, nedPos := pos, result := .normal, calls := [],
        errors := ["Cannot return: Drone is not armed."] }
    else if !w.inAir then
      { offboard := ob, nedPos := pos, result := .normal, calls := [],
        errors := ["Cannot return: Drone is not in the air."] }
    else
      { offboard := ob, nedPos := pos, result := .normal,
        calls := [VehicleCall.returnToLaunch],
        errors := if w.actionOk then [] else [excError .RETURN PyExc.timeout] }
  | .SHUTDOWN =>
    { offboard := ob, nedPos := pos, result := .shutdown, calls := [], errors := [] }
  | .LAND =>
    if !w.armed then
      { offboard := ob, nedPos := pos, result := .normal, calls := [],
        errors := ["Cannot land: Drone is not armed."] }
    else if !w.inAir then
      { offboard := ob, nedPos := pos, result := .normal, calls := [],
        errors := ["Cannot land: Drone is already on the ground."] }
    else
      { offboard := ob, nedPos := pos, result := .normal, calls := [VehicleCall.land],
        errors := if w.actionOk then [] else [excError .LAND PyExc.timeout] }
  | .DISARM =>
    if w.inAir then
      { offboard := ob, nedPos := pos, result := .normal, calls := [],
        errors := ["Cannot disarm: Drone is in the air. Please land first."] }
    else
      { offboard := ob, nedPos := pos, result := .normal, calls := [VehicleCall.disarm],
        errors := if w.actionOk then [] else [excError .DISARM PyExc.timeout] }
  | .TAKEOFF =>
    if !w.armed then
      { offboard := ob, nedPos := pos, result := .normal, calls := [],
        errors := ["Cannot takeoff: Drone is not armed. Please arm the drone first."] }
    else
      let alt := match distMeters with
        | some r => if r ≠ 0 then r else 1
        | none => 1
      if w.actionOk then
        { offboard := ob, nedPos := pos, result := .normal,
          calls := [VehicleCall.setTakeoffAltitude alt, VehicleCall.takeoff],
          errors := [] }
      else
        { offboard := ob, nedPos := pos, result := .normal,
          calls := [VehicleCall.setTakeoffAltitude alt],
          errors := [excError .TAKEOFF PyExc.timeout] }
  | .FORWARD => execMoveBranch w .FORWARD distMeters ob pos
  | .BACKWARD => execMoveBranch w .BACKWARD distMeters ob pos
  | .UP => execMoveBranch w .UP distMeters ob pos
  | .DOWN => execMoveBranch w .DOWN distMeters ob pos
  | .LEFT => execMoveBranch w .LEFT distMeters ob pos
  | .RIGHT => execMoveBranch w .RIGHT distMeters ob pos
  | .RO_LEFT => execRotBranch w .RO_LEFT distMeters ob pos
  | .RO_RIGHT => execRotBranch w .RO_RIGHT distMeters ob pos

/-- Model of execute_command of src/drone/command.py.  The function reads
the stop-request flag first and skips every non-STOP command while it is
set; in SIM_MODE it only adjusts the cached offboard flag and logs; on a
real vehicle, an offboard-disabling command with the offboard flag cached
true first stops offboard mode and clears the flag, a timeout of that stop
still clearing the flag and aborting the command; then the per-command
dispatch runs and every exception is caught and logged at the foot. -/
def execute_command (w : World) (cmdType : CmdType) (distVal : Option Nat)
    (distType : Option UnitT) (ob : Bool) (pos : Option (Rat × Rat × Rat))
    (stopRequested : Bool) : ExecOut :=
  if stopRequested && !(cmdType = CmdType.STOP : Bool) then
    { offboard := ob, nedPos := pos, result := .normal, calls := [], errors := [] }
  else if w.simMode then
    let ob1 :=
      if decide (cmdType ∈ offboardDisablers) && ob then false
      else if decide (cmdType ∈ simEnablers) then true
      else ob
    { offboard := ob1, nedPos := pos,
      result := if cmdType = CmdType.SHUTDOWN then .shutdown else .normal,
      calls := [], errors := [] }
  else if ob && decide (cmdType ∈ offboardDisablers) then
    if w.offboardStopOk then
      let m := execMain w cmdType distVal distType false pos
      { m with calls := VehicleCall.offboardStop :: m.calls }
    else
      { offboard := false, nedPos := pos, result := .normal,
        calls := [VehicleCall.offboardStop], errors := ["Offboard stop timed out"] }
  else
    execMain w cmdType distVal distType ob pos

/-- Way a chain run ends in execute_command_chain of src/main.py: the loop
ran out of steps, the stop flag broke it, a SHUTDOWN sentinel triggered the
cleanup-and-SystemExit path, or an exception was caught by the chain Except handler, its own
handler (such as indexing an empty command list). -/
inductive ChainOutcome
  | completed
  | interrupted
  | shutdownExit
  | errored
  deriving DecidableEq, Repr

/-- State of the step loop of execute_command_chain after it finishes,
before the finally block: the executed steps in order, the outcome, the
stop flag, and the two vehicle-state globals. -/
structure ChainRun where
  executed : List ParsedCommand
  outcome : ChainOutcome
  stopFlag : Bool
  offboard : Bool
  nedPos : Option (Rat × Rat × Rat)
  deriving DecidableEq, Repr

/-- Step loop of execute_command_chain of src/main.py for chains longer
than one.  extStop is the concurrency oracle: extStop i is true when the
recognition loop called set_stop_requested(True) between the previous check
and the check before step i (steps are numbered from 1).  Before each step
the loop checks the flag and breaks with the Interrupted outcome; a
SHUTDOWN result from a step takes the cleanup-and-SystemExit path
immediately; execute_command itself never writes the flag. -/
def runSteps (w : World) (extStop : Nat → Bool) :
    List ParsedCommand → Nat → Bool → Bool → Option (Rat × Rat × Rat) → ChainRun
  | [], _, stopFlag, ob, pos =>
    { executed := [], outcome := .completed, stopFlag := stopFlag,
      offboard := ob, nedPos := pos }
  | c :: rest, idx, stopFlag, ob, pos =>
    let stop1 := stopFlag || extStop idx
    if stop1 then
      { executed := [], outcome := .interrupted, stopFlag := stop1,
        offboard := ob, nedPos := pos }
    else
      let out := execute_command w c.1 c.2.1 c.2.2 ob pos stop1
      if out.result = CmdResult.shutdown then
        { executed := [c], outcome := .shutdownExit, stopFlag := stop1,
          offboard := out.offboard, nedPos := out.nedPos }
      else
        let r := runSteps w extStop rest (idx + 1) stop1 out.offboard out.nedPos
        { r with executed := c :: r.executed }

/-- State visible once the chain task has finished: the values the finally
block leaves in the two execution flags, together with the executed steps,
the outcome and the vehicle-state globals. -/
structure ChainOut where
  executed : List ParsedCommand
  outcome : ChainOutcome
  stopRequested : Bool
  commandExecuting : Bool
  offboard : Bool
  nedPos : Option (Rat × Rat × Rat)
  deriving DecidableEq, Repr

/-- Model of execute_command_chain of src/main.py.  Entry sets
commandExecuting true and stopRequested false (the loop therefore starts
with a false stop flag); a chain of length one calls execute_command once
without a preceding check (the external stop arriving before that call is
extStop 1, which the skip guard of the command reads); an empty list raises
IndexError, caught by the chain handler; a SHUTDOWN result takes the
cleanup-and-SystemExit path.  The finally block always runs — including on
the SystemExit path — and sets both flags false. -/
def execute_command_chain (w : World) (extStop : Nat → Bool)
    (cmds : List ParsedCommand) (ob : Bool) (pos : Option (Rat × Rat × Rat)) : ChainOut :=
  let r :=
    if 1 < cmds.length then runSteps w extStop cmds 1 false ob pos
    else
      match cmds with
      | [] =>
        { executed := [], outcome := ChainOutcome.errored, stopFlag := false,
          offboard := ob, nedPos := pos }
      | c :: _ =>
        let stop1 := extStop 1
        let out := execute_command w c.1 c.2.1 c.2.2 ob pos stop1
        { executed := [c],
          outcome := if out.result = CmdResult.shutdown then ChainOutcome.shutdownExit
            else ChainOutcome.completed,
          stopFlag := stop1, offboard := out.offboard, nedPos := out.nedPos }
  { executed := r.executed, outcome := r.outcome, stopRequested := false,
    commandExecuting := false, offboard := r.offboard, nedPos := r.nedPos }

/-- Stop-request flag value observed at the check before step i: the chain
entry cleared it and only the external recognizer sets it, so it is the
disjunction of the arrivals up to that check. -/
def obs (extStop : Nat → Bool) : Nat → Bool
  | 0 => false
  | i + 1 => obs extStop i || extStop (i + 1)

/-- Concrete real-mode world used by closed witnesses and counterexamples:
armed, airborne, and every vehicle call completes within its timeout. -/
def worldA : World :=
  { simMode := false, armed := true, inAir := true, yaw := 0, cosYaw := 1,
    sinYaw := 0, telemPos := (0, 0, 0), offboardStopOk := true,
    setpointOk := true, actionOk := true, offboardStartOk := true }

/-- Concrete simulation-mode world (the default SIM_MODE configuration),
used by the chain-level witnesses. -/
def worldSim : World :=
  { worldA with simMode := true }

/-- Real-mode world whose offboard-stop call times out. -/
def worldT : World :=
  { worldA with offboardStopOk := false }

/-- World with an oblique heading for the C6 witness: cos 3/5, sin 4/5. -/
def worldB : World :=
  { worldA with yaw := 53, cosYaw := 3 / 5, sinYaw := 4 / 5 }

/-- Three-step chain used by the concrete C3 conjunct: FORWARD five meters,
UP, LAND. -/
def chain3 : List ParsedCommand :=
  [(CmdType.FORWARD, some 5, some UnitT.meters), (CmdType.UP, none, none),
   (CmdType.LAND, none, none)]

/-- C10: whenever execute_command runs with the stop-request flag set and a
command other than STOP, it returns immediately: no vehicle-control call is
issued, no error is logged, the result is the normal sentinel, and the
cached offboard flag and NED position are left unchanged. -/
theorem c10_stop_skip_frame (w : World) (c : CmdType) (v : Option Nat)
    (u : Option UnitT) (ob : Bool) (pos : Option (Rat × Rat × Rat))
    (hc : c ≠ CmdType.STOP) :
    (execute_command w c v u ob pos true).calls = [] ∧
    (execute_command w c v u ob pos true).offboard = ob ∧
    (execute_command w c v u ob pos true).nedPos = pos ∧
    (execute_command w c v u ob pos true).result = CmdResult.normal := by
  simp [execute_command, hc]

/-- Closed instance of the C10 theorem: a skipped ARM over worldA leaves
the offboard flag and position untouched and issues nothing. -/
theorem c10_stop_skip_frame_witness :
    (execute_command worldA CmdType.ARM none none true (some (1, 2, 3)) true).calls = [] ∧
    (execute_command worldA CmdType.ARM none none true (some (1, 2, 3)) true).offboard = true ∧
    (execute_command worldA CmdType.ARM none none true (some (1, 2, 3)) true).nedPos = some (1, 2, 3) ∧
    (execute_command worldA CmdType.ARM none none true (some (1, 2, 3)) true).result = CmdResult.normal :=
  c10_stop_skip_frame worldA CmdType.ARM none none true (some (1, 2, 3)) (by decide)

/-- C4: whichever path a chain run takes — normal completion, interruption
by the stop flag, a caught error, or the shutdown path — the state once the
chain task finishes has both commandExecuting and stopRequested false, by
the finally block of execute_command_chain. -/
theorem c4_flags_cleared_on_exit (w : World) (extStop : Nat → Bool)
    (cmds : List ParsedCommand) (ob : Bool) (pos : Option (Rat × Rat × Rat)) :
    (execute_command_chain w extStop cmds ob pos).stopRequested = false ∧
    (execute_command_chain w extStop cmds ob pos).commandExecuting = false :=
  ⟨rfl, rfl⟩

/-- C2 fails on the code: parse of the utterance rotate left twenty degrees
does not return the ROTATE_LEFT command, because the trigger left (declared
for LEFT) precedes rotate left (declared for RO_LEFT) in lexicon
declaration order and first match wins. -/
theorem c2_counterexample :
    parse_commands (cs "rotate left twenty degrees") ≠
      [(CmdType.RO_LEFT, some 20, some UnitT.degrees)] := by decide

/-- C2 (amended): parse of rotate left twenty degrees returns exactly the
one-element list [(LEFT, 20, degrees)]; trigger matching picks the first
lexicon trigger occurring as a substring in declaration order, and that
first trigger here is left, mapped to LEFT. -/
theorem c2_first_trigger_wins :
    parse_commands (cs "rotate left twenty degrees") =
      [(CmdType.LEFT, some 20, some UnitT.degrees)] ∧
    findTrigger COMMAND_LOOKUP (cs "rotate left twenty degrees") =
      some (cs "left", CmdType.LEFT) := by decide

/-- C7: the word-number path scans tokens left to right with a running
total — a hundred token multiplies the total by 100, any other matched
number word is added, and the first unmatched token with a positive total
ends the scan keeping the total — so the remainder twenty one yields
magnitude 21 and one hundred yields 100. -/
theorem c7_word_number_accumulation :
    (extract_values (cs "twenty one")).1 = some 21 ∧
    (extract_values (cs "one hundred")).1 = some 100 ∧
    (∀ ws total, wordTotal (cs "hundred" :: ws) total = wordTotal ws (total * 100)) ∧
    (∀ w ws total n, numLookup w = some n → n ≠ 100 →
      wordTotal (w :: ws) total = wordTotal ws (total + n)) ∧
    (∀ w ws total, numLookup w = none → 0 < total → wordTotal (w :: ws) total = total) := by
  refine ⟨by decide, by decide, ?_, ?_, ?_⟩
  · intro ws total
    simp [wordTotal, show numLookup (cs "hundred") = some 100 from by decide]
  · intro w ws total n h hn
    simp [wordTotal, h, hn]
  · intro w ws total h ht
    simp [wordTotal, h, ht]

/-- Closed instance of the C7 theorem: the concrete accumulations plus the
three scan rules applied at explicit tokens. -/
theorem c7_word_number_accumulation_witness :
    (extract_values (cs "twenty one")).1 = some 21 ∧
    wordTotal [cs "hundred"] 1 = wordTotal [] (1 * 100) ∧
    wordTotal [cs "two"] 20 = wordTotal [] (20 + 2) ∧
    wordTotal [cs "stop"] 7 = 7 :=
  ⟨c7_word_number_accumulation.1,
   c7_word_number_accumulation.2.2.1 [] 1,
   c7_word_number_accumulation.2.2.2.1 (cs "two") [] 20 2 (by decide) (by decide),
   c7_word_number_accumulation.2.2.2.2 (cs "stop") [] 7 (by decide) (by decide)⟩

/-- Helper for C9: one conversion call never pushes the cache past 50
entries, because insertion is guarded by the capacity test. -/
theorem convert_step_le (v : Option Nat) (u : Option UnitT) (c : ConvCache)
    (h : c.length ≤ 50) : ((convert_to_meters v u c).2).length ≤ 50 := by
  rcases v with _ | v
  · simpa [convert_to_meters] using h
  rcases u with _ | u
  · simpa [convert_to_meters] using h
  by_cases hv : v = 0
  · simpa [convert_to_meters, hv] using h
  rcases hl : lookupCache c (v, u) with _ | r
  · by_cases hlen : c.length < 50
    · simp only [convert_to_meters, hv, hl, hlen, if_false, if_true, List.length_cons]
      omega
    · simpa [convert_to_meters, hv, hl, hlen] using h
  · simpa [convert_to_meters, hv, hl] using h

/-- Helper for C9: the capacity bound is preserved by any sequence of
conversion calls. -/
theorem runConversions_le (calls : List (Option Nat × Option UnitT)) :
    ∀ c : ConvCache, c.length ≤ 50 → (runConversions calls c).length ≤ 50 := by
  induction calls with
  | nil => intro c h; simpa [runConversions] using h
  | cons p rest ih =>
    intro c h
    rcases p with ⟨v, u⟩
    simpa [runConversions] using ih _ (convert_step_le v u c h)

/-- C9: over every sequence of calls to the unit-conversion function
starting from the empty cache, the memoization cache never holds more than
50 entries; and two consecutive calls with the same value-unit pair return
the identical result both times, whether or not the result was cached. -/
theorem c9_cache_bound_and_idempotence :
    (∀ calls : List (Option Nat × Option UnitT),
      (runConversions calls []).length ≤ 50) ∧
    (∀ (v : Option Nat) (u : Option UnitT) (c : ConvCache),
      (convert_to_meters v u (convert_to_meters v u c).2).1 =
        (convert_to_meters v u c).1) := by
  constructor
  · intro calls
    exact runConversions_le calls [] (by simp)
  · intro v u c
    rcases v with _ | v
    · simp [convert_to_meters]
    rcases u with _ | u
    · simp [convert_to_meters]
    by_cases hv : v = 0
    · simp [convert_to_meters, hv]
    rcases hl : lookupCache c (v, u) with _ | r
    · by_cases hlen : c.length < 50
      · simp [convert_to_meters, hv, hl, hlen, lookupCache]
      · simp [convert_to_meters, hv, hl, hlen]
    · simp [convert_to_meters, hv, hl]

/-- C1 fails as universally stated: with offboard mode cached active, a
DISARM while airborne does issue one vehicle call — the offboard-stop that
exits offboard mode — before the in-air check rejects the disarm action
itself. -/
theorem c1_counterexample :
    worldA.inAir = true ∧
    (execute_command worldA CmdType.DISARM none none true none false).calls ≠ [] := by
  decide

/-- C1 (amended): a DISARM executed on a real vehicle that reports being in
the air, with no pending stop request, never sends the disarm action; the
only vehicle call possibly issued is the offboard-stop that exits offboard
mode; an error is logged; and the command returns the normal sentinel, so
the chain and loop continue without an exception. -/
theorem c1_disarm_in_air_rejected (w : World) (v : Option Nat) (u : Option UnitT)
    (ob : Bool) (pos : Option (Rat × Rat × Rat))
    (hsim : w.simMode = false) (hair : w.inAir = true) :
    VehicleCall.disarm ∉ (execute_command w CmdType.DISARM v u ob pos false).calls ∧
    (∀ cl ∈ (execute_command w CmdType.DISARM v u ob pos false).calls,
      cl = VehicleCall.offboardStop) ∧
    (execute_command w CmdType.DISARM v u ob pos false).errors ≠ [] ∧
    (execute_command w CmdType.DISARM v u ob pos false).result = CmdResult.normal := by
  cases ob with
  | false => simp [execute_command, execMain, hsim, hair]
  | true =>
    cases hstop : w.offboardStopOk with
    | false => simp [execute_command, execMain, hsim, hair, hstop, offboardDisablers]
    | true => simp [execute_command, execMain, hsim, hair, hstop, offboardDisablers]

/-- Closed instance of the C1 theorem: a DISARM while airborne over worldA
with offboard inactive issues nothing, logs an error and returns
normally. -/
theorem c1_disarm_in_air_rejected_witness :
    VehicleCall.disarm ∉ (execute_command worldA CmdType.DISARM none none false none false).calls ∧
    (∀ cl ∈ (execute_command worldA CmdType.DISARM none none false none false).calls,
      cl = VehicleCall.offboardStop) ∧
    (execute_command worldA CmdType.DISARM none none false none false).errors ≠ [] ∧
    (execute_command worldA CmdType.DISARM none none false none false).result = CmdResult.normal :=
  c1_disarm_in_air_rejected worldA none none false none rfl rfl

/-- C5: an offboard-disabling command (STOP, RETURN, LAND, DISARM or
SHUTDOWN) executed while the cached offboard flag is true, whose
offboard-stop call times out, still leaves the cached offboard flag false
afterward (fail-safe) and is aborted: no underlying action call is issued
and the result is the normal sentinel. -/
theorem c5_offboard_stop_timeout_failsafe (w : World) (c : CmdType) (v : Option Nat)
    (u : Option UnitT) (pos : Option (Rat × Rat × Rat))
    (hsim : w.simMode = false) (hc : c ∈ offboardDisablers)
    (hto : w.offboardStopOk = false) :
    (execute_command w c v u true pos false).offboard = false ∧
    (execute_command w c v u true pos false).calls = [VehicleCall.offboardStop] ∧
    (execute_command w c v u true pos false).nedPos = pos ∧
    (execute_command w c v u true pos false).result = CmdResult.normal := by
  fin_cases hc <;> simp [execute_command, hsim, hto, offboardDisablers]

/-- Closed instance of the C5 theorem: a LAND over worldT with offboard
cached active and a timed-out offboard-stop. -/
theorem c5_offboard_stop_timeout_failsafe_witness :
    (execute_command worldT CmdType.LAND none none true (some (1, 2, 3)) false).offboard = false ∧
    (execute_command worldT CmdType.LAND none none true (some (1, 2, 3)) false).calls =
      [VehicleCall.offboardStop] ∧
    (execute_command worldT CmdType.LAND none none true (some (1, 2, 3)) false).nedPos =
      some (1, 2, 3) ∧
    (execute_command worldT CmdType.LAND none none true (some (1, 2, 3)) false).result =
      CmdResult.normal :=
  c5_offboard_stop_timeout_failsafe worldT CmdType.LAND none none (some (1, 2, 3))
    rfl (by decide) rfl

/-- C6: a translational movement with direction d, distance m meters,
cached tangent-frame position (n, e, dn) and heading yaw read from
telemetry issues exactly the setpoint
(n + vx cos − vy sin, e + vx sin + vy cos, dn + vz) with yaw held, where
(vx, vy, vz) is m times the unit direction vector of d and cos, sin are
the library values for the yaw; on success the cached position is updated
to exactly that value, and no exception escapes. -/
theorem c6_movement_setpoint (w : World) (d : CmdType) (m n e dn dx dy dz : Rat)
    (hdir : BASE_DIRECTION_OFFSETS d = some (dx, dy, dz))
    (hsp : w.setpointOk = true) :
    (execute_movement_command w d m true (some (n, e, dn))).calls =
      [VehicleCall.setPositionNed (n + m * dx * w.cosYaw - m * dy * w.sinYaw)
        (e + m * dx * w.sinYaw + m * dy * w.cosYaw) (dn + m * dz) w.yaw] ∧
    (execute_movement_command w d m true (some (n, e, dn))).nedPos =
      some (n + m * dx * w.cosYaw - m * dy * w.sinYaw,
        e + m * dx * w.sinYaw + m * dy * w.cosYaw, dn + m * dz) ∧
    (execute_movement_command w d m true (some (n, e, dn))).exc = none ∧
    (execute_movement_command w d m true (some (n, e, dn))).offboard = true := by
  simp [execute_movement_command, hdir, hsp, Prod.ext_iff]
  constructorm* _ ∧ _ <;> ring

/-- Helper for C8: the stripped string is a contiguous piece of the
original, so any substring of the stripped string is a substring of the
original. -/
theorem strip_infix_self (s : List Char) : strip s <:+: s := by
  unfold strip
  have h1 : s.dropWhile isWS <:+ s := List.dropWhile_suffix isWS
  have h2 : (s.dropWhile isWS).reverse.dropWhile isWS <:+ (s.dropWhile isWS).reverse :=
    List.dropWhile_suffix isWS
  have h3 : ((s.dropWhile isWS).reverse.dropWhile isWS).reverse <+: s.dropWhile isWS := by
    have := List.reverse_prefix.mpr h2
    simpa using this
  exact h3.isInfix.trans h1.isInfix

/-- Helper for C8: the trigger scan of get_command misses when no trigger
of the table occurs as a substring of the command. -/
theorem findTrigger_eq_none (lookup : List (List Char × CmdType)) (command : List Char)
    (h : ∀ p ∈ lookup, ¬ p.1 <:+: command) : findTrigger lookup command = none := by
  induction lookup with
  | nil => rfl
  | cons p rest ih =>
    rcases p with ⟨t, c⟩
    have ht : ¬ t <:+: command := h (t, c) (by simp)
    simp only [findTrigger, ht, if_false]
    exact ih (fun q hq => h q (by simp [hq]))

/-- C8: an utterance none of whose fragments contains any lexicon trigger
phrase as a substring parses to the empty list; parsing is a total function
of the input, so no error reaches the caller, and a fragment that fails to
match yields nothing without aborting the rest of the utterance. -/
theorem c8_no_trigger_parses_empty (u : List Char)
    (h : ∀ frag ∈ splitSep (lowerStr u), ∀ p ∈ COMMAND_LOOKUP, ¬ p.1 <:+: frag) :
    parse_commands u = [] := by
  unfold parse_commands
  by_cases hu : u = []
  · simp [hu]
  · simp only [hu, if_false]
    rw [List.filterMap_eq_nil_iff]
    intro frag hfrag
    unfold fragResult
    by_cases hempty : strip frag = []
    · simp [hempty]
    · have hft : findTrigger COMMAND_LOOKUP (strip (strip frag)) = none := by
        apply findTrigger_eq_none
        intro p hp hinf
        exact h frag hfrag p hp
          (hinf.trans ((strip_infix_self (strip frag)).trans (strip_infix_self frag)))
      simp [hempty, get_command, hft]

/-- Closed instance of the C8 theorem: an utterance without any trigger. -/
theorem c8_no_trigger_parses_empty_witness :
    parse_commands (cs "hello world") = [] :=
  c8_no_trigger_parses_empty (cs "hello world") (by decide)

/-- Helper for C3: the observed stop flag is monotone in the step index —
only the chain cleanup ever clears it, never a step. -/
theorem obs_mono (e : Nat → Bool) (i : Nat) :
    ∀ j, i ≤ j → obs e i = true → obs e j = true := by
  intro j
  induction j with
  | zero =>
    intro hj hi
    have : i = 0 := Nat.le_zero.mp hj
    simpa [this] using hi
  | succ j ih =>
    intro hj hi
    by_cases hij : i = j + 1
    · simpa [hij] using hi
    · have hj' : i ≤ j := by omega
      simp [obs, ih hj' hi]

/-- Helper for C3: when the first external stop arrival is observed at the
check before step i, the step loop entered at step k+1 with the flag value
observed at check k executes at most the commands before step i. -/
theorem runSteps_executed_early (w : World) (e : Nat → Bool) (i : Nat)
    (hi : obs e i = true) :
    ∀ (rest : List ParsedCommand) (k : Nat) (ob : Bool) (pos : Option (Rat × Rat × Rat)),
      (runSteps w e rest (k + 1) (obs e k) ob pos).executed <+: rest.take (i - (k + 1)) := by
  intro rest
  induction rest with
  | nil =>
    intro k ob pos
    simp [runSteps]
  | cons c rest ih =>
    intro k ob pos
    have hflag : (obs e k || e (k + 1)) = obs e (k + 1) := rfl
    by_cases hstop : obs e (k + 1) = true
    · simp [runSteps, hflag, hstop]
    · have hfalse : obs e (k + 1) = false := by
        cases hob : obs e (k + 1)
        · rfl
        · exact absurd hob hstop
      have hki : k + 1 < i := by
        by_contra hge
        push_neg at hge
        exact hstop (obs_mono e i (k + 1) hge hi)
      have htake : (c :: rest).take (i - (k + 1)) = c :: rest.take (i - (k + 2)) := by
        have : i - (k + 1) = (i - (k + 2)) + 1 := by omega
        simp [this]
      rw [htake]
      simp only [runSteps, hflag, hfalse, if_false, Bool.false_eq_true]
      by_cases hres :
          (execute_command w c.1 c.2.1 c.2.2 ob pos false).result = CmdResult.shutdown
      · simp only [hres, if_true]
        exact List.cons_prefix_cons.mpr ⟨rfl, List.nil_prefix⟩
      · simp only [hres, if_false]
        have := ih (k + 1) (execute_command w c.1 c.2.1 c.2.2 ob pos false).offboard
          (execute_command w c.1 c.2.1 c.2.2 ob pos false).nedPos
        rw [show obs e (k + 1) = false from hfalse] at this
        exact List.cons_prefix_cons.mpr ⟨rfl, this⟩

/-- C3: in a chain of length greater than one the stop flag is checked
before each step, so when the first external stop arrival is observed at
the check before step i, the executed steps form a prefix of the first
i - 1 commands — step i and all later steps never run; concretely, a chain
of three with the stop arriving before step 2 runs only step 1 and ends
Interrupted. -/
theorem c3_chain_interrupt :
    (∀ (w : World) (extStop : Nat → Bool) (cmds : List ParsedCommand)
      (ob : Bool) (pos : Option (Rat × Rat × Rat)) (i : Nat),
      1 < cmds.length →
      (∀ j, j < i → obs extStop j = false) → obs extStop i = true →
      (execute_command_chain w extStop cmds ob pos).executed <+: cmds.take (i - 1)) ∧
    ((execute_command_chain worldSim (fun i => decide (i = 2)) chain3 false none).executed =
      [(CmdType.FORWARD, some 5, some UnitT.meters)] ∧
     (execute_command_chain worldSim (fun i => decide (i = 2)) chain3 false none).outcome =
      ChainOutcome.interrupted) := by
  refine ⟨?_, by decide, by decide⟩
  intro w e cmds ob pos i hlen _hlow hi
  unfold execute_command_chain
  simp only [hlen, if_true]
  exact runSteps_executed_early w e i hi cmds 0 ob pos

/-- Closed instance of the universally quantified C3 conjunct, at the same
concrete chain, with the stop observed at the check before step 2. -/
theorem c3_chain_interrupt_witness :
    (execute_command_chain worldSim (fun i => decide (i = 2)) chain3 false none).executed <+:
      chain3.take (2 - 1) :=
  c3_chain_interrupt.1 worldSim (fun i => decide (i = 2)) chain3 false none 2
    (by decide) (by decide) (by decide)

/-- Closed instance of the C6 theorem: FORWARD two meters over worldB from
cached position (1, 2, -5). -/
theorem c6_movement_setpoint_witness :
    (execute_movement_command worldB CmdType.FORWARD 2 true (some (1, 2, -5))).calls =
      [VehicleCall.setPositionNed (1 + 2 * 1 * worldB.cosYaw - 2 * 0 * worldB.sinYaw)
        (2 + 2 * 1 * worldB.sinYaw + 2 * 0 * worldB.cosYaw) (-5 + 2 * 0) worldB.yaw] ∧
    (execute_movement_command worldB CmdType.FORWARD 2 true (some (1, 2, -5))).nedPos =
      some (1 + 2 * 1 * worldB.cosYaw - 2 * 0 * worldB.sinYaw,
        2 + 2 * 1 * worldB.sinYaw + 2 * 0 * worldB.cosYaw, -5 + 2 * 0) ∧
    (execute_movement_command worldB CmdType.FORWARD 2 true (some (1, 2, -5))).exc = none ∧
    (execute_movement_command worldB CmdType.FORWARD 2 true (some (1, 2, -5))).offboard = true :=
  c6_movement_setpoint worldB CmdType.FORWARD 2 1 2 (-5) 1 0 0 (by norm_num [BASE_DIRECTION_OFFSETS]) rfl
